import Mathlib

/-!
Verification development for the client-side RDMA write transport
(`rdma_client.h`: ` rdma_client_initialize`, ` rdma_client_post_write`).
The header only declares the two entry points; the behavioural model below
is built from the design document (lifecycle state machine, Queue
Directory, Memory Region Registry, Write Poster, Completion Reaper,
shutdown), with the fabric collaborator abstracted as an explicit input.
-/

namespace RdmaClient

/-- Modelled from the spec: lifecycle states of the Client Context
(section 4.1), absent from src which only holds the header. -/
inductive LifecycleState
  | Uninitialized
  | Initializing
  | Ready
  | Failed
  | ShuttingDown
  | Closed
  deriving DecidableEq, Repr

/-- Modelled from the spec: connection state of a Queue Handle
(section 3), absent from src which only holds the header. -/
inductive ConnState
  | Connecting
  | Connected
  | Degraded
  | Closed
  deriving DecidableEq, Repr

/-- Modelled from the spec: a Queue Handle of the Queue Directory
(section 3): symbolic name, queue-pair id, connection state,
outstanding-request counter, configured depth. -/
structure QueueHandle where
  name : String
  qpId : Nat
  connState : ConnState
  outstanding : Nat
  depth : Nat
  deriving DecidableEq, Repr

/-- Modelled from the spec: a registered Memory Region
(section 3): base address, length, registration handle. -/
structure MemRegion where
  base : Nat
  len : Nat
  regHandle : Nat
  deriving DecidableEq, Repr

/-- Modelled from the spec: completion-failure cause taxonomy of the
Completion Reaper (section 4.4) plus Cancelled used at shutdown. -/
inductive FailCause
  | RemoteAccessViolation
  | Timeout
  | LocalProtectionError
  | FlushedOnQueueClose
  | Cancelled
  deriving DecidableEq, Repr

/-- Modelled from the spec: completion status of a Write Request
(section 3). -/
inductive ReqStatus
  | Pending
  | Succeeded
  | Failed (cause : FailCause)
  deriving DecidableEq, Repr

/-- Modelled from the spec: a Write Request (section 3): work-request id,
target queue name, byte range, completion status. -/
structure WriteRequest where
  reqId : Nat
  queueName : String
  base : Nat
  len : Nat
  status : ReqStatus
  deriving DecidableEq, Repr

/-- Modelled from the spec: the process-wide Client Context (section 3):
lifecycle state, fabric device binding, default memory pool, the Queue
Directory, the Memory Region Registry, in-flight Write Requests and the
next work-request id. -/
structure ClientContext where
  lifecycle : LifecycleState
  fabricBound : Bool
  poolAllocated : Bool
  queues : List QueueHandle
  regions : List MemRegion
  requests : List WriteRequest
  nextReqId : Nat
  deriving DecidableEq, Repr

/-- Modelled from the spec: the initial, uninitialized Client Context. -/
def initialContext : ClientContext :=
  { lifecycle := LifecycleState.Uninitialized
    fabricBound := false
    poolAllocated := false
    queues := []
    regions := []
    requests := []
    nextReqId := 0 }

/-- Modelled from the spec: errors reported by ` rdma_client_initialize`
(sections 4.1 and 7): AlreadyInitialized plus the InitializationError
cause codes device-not-found, resource-exhausted, permission-denied. -/
inductive InitError
  | AlreadyInitialized
  | DeviceNotFound
  | ResourceExhausted
  | PermissionDenied
  deriving DecidableEq, Repr

/-- Modelled from the spec: synchronous errors reported by
` rdma_client_post_write` (sections 4.3, 6 and 7). -/
inductive PostError
  | NotReady
  | QueueNotFound
  | QueueClosed
  | QueueFull
  | InvalidArgument
  | ResourceBusy
  deriving DecidableEq, Repr

/-- Modelled from the spec: distinct non-zero C status codes for
initialization errors (section 6). -/
def InitError.code : InitError → Int
  | InitError.AlreadyInitialized => 1
  | InitError.DeviceNotFound => 2
  | InitError.ResourceExhausted => 3
  | InitError.PermissionDenied => 4

/-- Modelled from the spec: distinct non-zero C status codes for
post-write errors (section 6: "distinct codes per condition"). -/
def PostError.code : PostError → Int
  | PostError.NotReady => 10
  | PostError.QueueNotFound => 11
  | PostError.QueueClosed => 12
  | PostError.QueueFull => 13
  | PostError.InvalidArgument => 14
  | PostError.ResourceBusy => 15

/-- Modelled from the spec: outcome of the external fabric collaborator
when ` rdma_client_initialize` builds the device binding (section 4.1). -/
inductive FabricOutcome
  | ok
  | deviceNotFound
  | resourceExhausted
  | permissionDenied
  deriving DecidableEq, Repr

/-- Modelled from the spec: ` rdma_client_initialize` (section 4.1).
Callable only from Uninitialized; otherwise fails with AlreadyInitialized
and changes nothing.  On fabric success binds the device and the default
memory pool and transitions to Ready; on fabric failure transitions to
Failed and reports the InitializationError cause. -/
def rdma_client_initialize (ctx : ClientContext) (fabric : FabricOutcome) :
    Except InitError Unit × ClientContext :=
  if ctx.lifecycle ≠ LifecycleState.Uninitialized then
    (Except.error InitError.AlreadyInitialized, ctx)
  else
    match fabric with
    | FabricOutcome.ok =>
        (Except.ok (),
         { ctx with lifecycle := LifecycleState.Ready
                    fabricBound := true
                    poolAllocated := true })
    | FabricOutcome.deviceNotFound =>
        (Except.error InitError.DeviceNotFound,
         { ctx with lifecycle := LifecycleState.Failed })
    | FabricOutcome.resourceExhausted =>
        (Except.error InitError.ResourceExhausted,
         { ctx with lifecycle := LifecycleState.Failed })
    | FabricOutcome.permissionDenied =>
        (Except.error InitError.PermissionDenied,
         { ctx with lifecycle := LifecycleState.Failed })

/-- Modelled from the spec: the C return status of
` rdma_client_initialize`: zero on success, the error code otherwise. -/
def initializeStatus (ctx : ClientContext) (fabric : FabricOutcome) : Int :=
  match ( rdma_client_initialize ctx fabric).1 with
  | Except.ok _ => 0
  | Except.error e => e.code

/-- Modelled from the spec: Queue Directory resolution (section 4.2),
a pure lookup of a case-sensitive symbolic name. -/
def findQueue (ctx : ClientContext) (name : String) : Option QueueHandle :=
  ctx.queues.find? (fun q => q.name == name)

/-- Modelled from the spec: Memory Region Registry validation
(section 4.3): the buffer lies wholly inside a registered region. -/
def inRegisteredRegion (ctx : ClientContext) (base len : Nat) : Bool :=
  ctx.regions.any (fun r => r.base ≤ base && base + len ≤ r.base + r.len)

/-- Modelled from the spec: increment the outstanding counter of the
(unique, section 4.2) queue with the given name. -/
def bumpOutstanding : List QueueHandle → String → List QueueHandle
  | [], _ => []
  | q :: qs, name =>
      if q.name == name then { q with outstanding := q.outstanding + 1 } :: qs
      else q :: bumpOutstanding qs name

/-- Modelled from the spec: decrement the outstanding counter of the
(unique, section 4.2) queue with the given name. -/
def decOutstanding : List QueueHandle → String → List QueueHandle
  | [], _ => []
  | q :: qs, name =>
      if q.name == name then { q with outstanding := q.outstanding - 1 } :: qs
      else q :: decOutstanding qs name

/-- Modelled from the spec: the value returned to the caller by a
successful post: a request identifier plus the best-effort flag set when
the queue is Degraded (section 4.3). -/
structure PostOk where
  reqId : Nat
  bestEffort : Bool
  deriving DecidableEq, Repr

/-- Modelled from the spec: ` rdma_client_post_write` (section 4.3).
Lifecycle errors are surfaced immediately (section 7a: not Ready fails
with NotReady); then the runtime argument checks (length > 0, buffer
wholly inside a registered Memory Region) fail with InvalidArgument;
then the Queue Directory resolves the name (QueueNotFound / QueueClosed);
then backpressure (outstanding ≥ depth fails with QueueFull); then the
fabric submission, whose transient device exhaustion is the explicit
`busy` input (ResourceBusy).  On success it increments the queue's
outstanding counter, creates one Pending Write Request and returns the
request identifier without awaiting completion. -/
def rdma_client_post_write (ctx : ClientContext) (busy : Bool)
    (queue : String) (base : Nat) (length : Nat) :
    Except PostError PostOk × ClientContext :=
  if ctx.lifecycle ≠ LifecycleState.Ready then
    (Except.error PostError.NotReady, ctx)
  else if length = 0 then
    (Except.error PostError.InvalidArgument, ctx)
  else if ¬ inRegisteredRegion ctx base length then
    (Except.error PostError.InvalidArgument, ctx)
  else
    match findQueue ctx queue with
    | none => (Except.error PostError.QueueNotFound, ctx)
    | some q =>
        if q.connState = ConnState.Closed then
          (Except.error PostError.QueueClosed, ctx)
        else if q.depth ≤ q.outstanding then
          (Except.error PostError.QueueFull, ctx)
        else if busy then
          (Except.error PostError.ResourceBusy, ctx)
        else
          (Except.ok { reqId := ctx.nextReqId
                       bestEffort := decide (q.connState = ConnState.Degraded) },
           { ctx with
               queues := bumpOutstanding ctx.queues queue
               requests :=
                 { reqId := ctx.nextReqId
                   queueName := queue
                   base := base
                   len := length
                   status := ReqStatus.Pending } :: ctx.requests
               nextReqId := ctx.nextReqId + 1 })

/-- Modelled from the spec: the C return status of
` rdma_client_post_write`: zero on success, the error code otherwise. -/
def postWriteStatus (ctx : ClientContext) (busy : Bool)
    (queue : String) (base : Nat) (length : Nat) : Int :=
  match ( rdma_client_post_write ctx busy queue base length).1 with
  | Except.ok _ => 0
  | Except.error e => e.code

/-- Modelled from the spec: outcome carried by one fabric completion
notification (section 4.4). -/
inductive CompletionOutcome
  | success
  | failure (cause : FailCause)
  deriving DecidableEq, Repr

/-- Modelled from the spec: the resolved status a completion assigns. -/
def CompletionOutcome.toStatus : CompletionOutcome → ReqStatus
  | CompletionOutcome.success => ReqStatus.Succeeded
  | CompletionOutcome.failure c => ReqStatus.Failed c

/-- Modelled from the spec: one step of the Completion Reaper
(section 4.4): match the carried work-request id to an outstanding Write
Request; if it is still Pending, set its status to Succeeded or
Failed(cause) and decrement the owning queue's outstanding counter;
unmatched or already-retired completions are discarded. -/
def reapCompletion (ctx : ClientContext) (wrId : Nat)
    (outcome : CompletionOutcome) : ClientContext :=
  match ctx.requests.find? (fun r => r.reqId == wrId) with
  | none => ctx
  | some r =>
      if r.status ≠ ReqStatus.Pending then ctx
      else
        { ctx with
            requests := ctx.requests.map (fun r2 =>
              if r2.reqId == wrId then { r2 with status := outcome.toStatus }
              else r2)
            queues := decOutstanding ctx.queues r.queueName }

/-- Modelled from the spec: shutdown errors (sections 4.1 and 6). -/
inductive ShutdownError
  | NotReady
  deriving DecidableEq, Repr

/-- Modelled from the spec: the work-request ids of the still-Pending
Write Requests of a context. -/
def pendingIds (ctx : ClientContext) : List Nat :=
  (ctx.requests.filter (fun r => r.status == ReqStatus.Pending)).map
    (fun r => r.reqId)

/-- Modelled from the spec: ` shutdown` (section 4.1, implied by section 6):
callable from Ready or Failed; cancels all Pending requests as
Failed(Cancelled), releases the default memory pool and the fabric
binding, transitions to Closed. -/
def rdma_client_shutdown (ctx : ClientContext) :
    Except ShutdownError Unit × ClientContext :=
  if ctx.lifecycle = LifecycleState.Ready ∨
     ctx.lifecycle = LifecycleState.Failed then
    (Except.ok (),
     { ctx with
         lifecycle := LifecycleState.Closed
         fabricBound := false
         poolAllocated := false
         requests := ctx.requests.map (fun r =>
           if r.status == ReqStatus.Pending then
             { r with status := ReqStatus.Failed FailCause.Cancelled }
           else r) })
  else (Except.error ShutdownError.NotReady, ctx)

/-- Modelled from the spec: the observable events of the shutdown
barrier, in order (section 5: the pool is released only after every
in-flight request is resolved). -/
inductive ShutdownEvent
  | resolveRequest (wrId : Nat)
  | releasePool
  | releaseFabric
  deriving DecidableEq, Repr

/-- Modelled from the spec: the ordered event trace of one shutdown:
first every Pending request is force-resolved to Failed(Cancelled),
then the default memory pool is released, then the fabric binding. -/
def shutdownTrace (ctx : ClientContext) : List ShutdownEvent :=
  (pendingIds ctx).map ShutdownEvent.resolveRequest ++
    [ShutdownEvent.releasePool, ShutdownEvent.releaseFabric]

/-- Whether a shutdown event resolves one in-flight request. -/
def ShutdownEvent.isResolve : ShutdownEvent → Bool
  | ShutdownEvent.resolveRequest _ => true
  | ShutdownEvent.releasePool => false
  | ShutdownEvent.releaseFabric => false

/-- One post-write call of a caller, with the fabric's transient
busy signal at submission time as an explicit input. -/
structure PostCall where
  busy : Bool
  queue : String
  base : Nat
  len : Nat
  deriving DecidableEq, Repr

/-- Run a sequence of post-write calls, threading the context. -/
def runPosts (ctx : ClientContext) (calls : List PostCall) : ClientContext :=
  calls.foldl
    (fun c call =>
      ( rdma_client_post_write c call.busy call.queue call.base call.len).2)
    ctx

/-- One call through the two C entry points of the header, which take no
context-handle parameter: they act on the one process-wide context. -/
inductive ApiCall
  | initCall (fabric : FabricOutcome)
  | writeCall (busy : Bool) (queue : String) (base : Nat) (len : Nat)
  deriving DecidableEq, Repr

/-- One step of the shared-context interface. -/
def apiStep (ctx : ClientContext) : ApiCall → ClientContext
  | ApiCall.initCall f => ( rdma_client_initialize ctx f).2
  | ApiCall.writeCall b q a l => ( rdma_client_post_write ctx b q a l).2

/-- Run a sequence of interface calls on the single shared context. -/
def runApi (ctx : ClientContext) (calls : List ApiCall) : ClientContext :=
  calls.foldl apiStep ctx

/-- Queue depth accounting: `outstanding ≤ configured depth` on every
queue of the directory (section 3 invariants). -/
def depthInvariant (ctx : ClientContext) : Prop :=
  ∀ q ∈ ctx.queues, q.outstanding ≤ q.depth

instance (ctx : ClientContext) : Decidable (depthInvariant ctx) := by
  unfold depthInvariant
  exact List.decidableBAll _ ctx.queues

/-! ### Sample data for concrete witnesses (section 8 scenarios) -/

/-- A registered 4096-byte buffer, as in the section 8 scenario. -/
def sampleRegion : MemRegion := { base := 4096, len := 4096, regHandle := 7 }

/-- The Connected queue "peer-1" of depth 8, as in section 8. -/
def sampleQueue : QueueHandle :=
  { name := "peer-1", qpId := 11, connState := ConnState.Connected
    outstanding := 0, depth := 8 }

/-- A Ready context holding the sample queue and region. -/
def readyCtx : ClientContext :=
  { lifecycle := LifecycleState.Ready, fabricBound := true
    poolAllocated := true, queues := [sampleQueue]
    regions := [sampleRegion], requests := [], nextReqId := 0 }

/-- The sample queue at its configured depth. -/
def fullQueue : QueueHandle := { sampleQueue with outstanding := 8 }

/-- A Ready context whose only queue is at depth. -/
def fullCtx : ClientContext := { readyCtx with queues := [fullQueue] }

/-- The sample queue after its connection closed. -/
def closedQueue : QueueHandle := { sampleQueue with connState := ConnState.Closed }

/-- A Ready context whose only queue is Closed. -/
def closedCtx : ClientContext := { readyCtx with queues := [closedQueue] }

/-- One Pending Write Request on the sample queue. -/
def pendingReq : WriteRequest :=
  { reqId := 0, queueName := "peer-1", base := 4096, len := 64
    status := ReqStatus.Pending }

/-- A Ready context with one outstanding Pending request. -/
def reapCtx : ClientContext :=
  { readyCtx with
      queues := [{ sampleQueue with outstanding := 1 }]
      requests := [pendingReq]
      nextReqId := 1 }

/-! ### Theorems -/

/-- C2: ` rdma_client_initialize` returns a non-zero status exactly when
an InitializationError occurs; ` rdma_client_post_write` returns a
non-zero status exactly when it fails with QueueNotFound, QueueClosed,
QueueFull, InvalidArgument or ResourceBusy (or NotReady), and the codes
of the five conditions are pairwise distinct and non-zero. -/
theorem status_codes_distinct_nonzero :
    (∀ ctx fabric, initializeStatus ctx fabric ≠ 0 ↔
        ∃ e : InitError,
          ( rdma_client_initialize ctx fabric).1 = Except.error e) ∧
    (∀ ctx busy q b l, postWriteStatus ctx busy q b l ≠ 0 ↔
        ∃ e : PostError,
          ( rdma_client_post_write ctx busy q b l).1 = Except.error e) ∧
    (∀ e : PostError, e.code ≠ 0) ∧
    (∀ e e' : PostError, e.code = e'.code → e = e') := by
  refine ⟨?_, ?_, ?_, ?_⟩
  · intro ctx fabric
    unfold initializeStatus
    cases hres : ( rdma_client_initialize ctx fabric).1 with
    | ok v => simp
    | error e => cases e <;> simp [InitError.code]
  · intro ctx busy q b l
    unfold postWriteStatus
    cases hres : ( rdma_client_post_write ctx busy q b l).1 with
    | ok v => simp
    | error e => cases e <;> simp [PostError.code]
  · intro e; cases e <;> simp [PostError.code]
  · intro e e' h
    cases e <;> cases e' <;> simp_all [PostError.code]

/-- C2 witness: the distinct-code part applied at QueueFull. -/
theorem status_codes_distinct_nonzero_witness :
    PostError.QueueFull = PostError.QueueFull :=
  status_codes_distinct_nonzero.2.2.2 PostError.QueueFull PostError.QueueFull rfl

/-- C3: from any lifecycle state other than Uninitialized,
` rdma_client_initialize` fails with AlreadyInitialized and leaves the
context unchanged (no fabric binding, no pool construction); in
particular a second initialize after a successful one fails with
AlreadyInitialized and changes nothing. -/
theorem initialize_rejects_reinitialization :
    (∀ ctx fabric, ctx.lifecycle ≠ LifecycleState.Uninitialized →
      ( rdma_client_initialize ctx fabric) =
        (Except.error InitError.AlreadyInitialized, ctx)) ∧
    (∀ ctx f1 f2, ( rdma_client_initialize ctx f1).1 = Except.ok () →
      ( rdma_client_initialize ( rdma_client_initialize ctx f1).2 f2) =
        (Except.error InitError.AlreadyInitialized,
         ( rdma_client_initialize ctx f1).2)) := by
  constructor
  · intro ctx fabric h
    unfold rdma_client_initialize
    simp [h]
  · intro ctx f1 f2 h
    by_cases hu : ctx.lifecycle = LifecycleState.Uninitialized
    · cases f1 <;> simp_all [ rdma_client_initialize]
    · simp [ rdma_client_initialize, hu] at h

/-- C3 witness: initializing twice from the initial context. -/
theorem initialize_rejects_reinitialization_witness :
    ( rdma_client_initialize
        ( rdma_client_initialize initialContext FabricOutcome.ok).2
        FabricOutcome.ok) =
      (Except.error InitError.AlreadyInitialized,
       ( rdma_client_initialize initialContext FabricOutcome.ok).2) :=
  initialize_rejects_reinitialization.2 initialContext FabricOutcome.ok
    FabricOutcome.ok rfl

/-- C4: every post-write call made while the Client Context is not Ready
fails with NotReady and leaves the whole context (registry, requests,
every queue counter) unchanged. -/
theorem post_write_not_ready (ctx : ClientContext) (busy : Bool)
    (queue : String) (base length : Nat)
    (h : ctx.lifecycle ≠ LifecycleState.Ready) :
    ( rdma_client_post_write ctx busy queue base length) =
      (Except.error PostError.NotReady, ctx) := by
  unfold rdma_client_post_write
  simp [h]

/-- C4 witness: posting before any initialize. -/
theorem post_write_not_ready_witness :
    ( rdma_client_post_write initialContext false "peer-1" 4096 64) =
      (Except.error PostError.NotReady, initialContext) :=
  post_write_not_ready initialContext false "peer-1" 4096 64 (by decide)

/-- C10: the interface admits length = 0; every such call returns a
non-zero status and leaves all state unchanged, and when the context is
Ready the error is InvalidArgument (the length > 0 precondition is a
runtime check, not a type restriction). -/
theorem post_write_zero_length (ctx : ClientContext) (busy : Bool)
    (queue : String) (base : Nat) :
    postWriteStatus ctx busy queue base 0 ≠ 0 ∧
    ( rdma_client_post_write ctx busy queue base 0).2 = ctx ∧
    (ctx.lifecycle = LifecycleState.Ready →
      ( rdma_client_post_write ctx busy queue base 0).1 =
        Except.error PostError.InvalidArgument) := by
  by_cases h : ctx.lifecycle = LifecycleState.Ready
  · unfold postWriteStatus rdma_client_post_write
    simp [h, PostError.code]
  · unfold postWriteStatus rdma_client_post_write
    simp [h, PostError.code]

/-- C10 witness: a zero-length post on a Ready context. -/
theorem post_write_zero_length_witness :
    postWriteStatus readyCtx false "peer-1" 4096 0 ≠ 0 ∧
    ( rdma_client_post_write readyCtx false "peer-1" 4096 0).1 =
      Except.error PostError.InvalidArgument :=
  ⟨(post_write_zero_length readyCtx false "peer-1" 4096).1,
   (post_write_zero_length readyCtx false "peer-1" 4096).2.2 rfl⟩

/-- Bumping the named queue preserves depth accounting when the resolved
queue has room. -/
lemma depthInvariant_bumpOutstanding (qs : List QueueHandle) (name : String)
    (q : QueueHandle)
    (hfind : qs.find? (fun p => p.name == name) = some q)
    (hlt : q.outstanding < q.depth)
    (hinv : ∀ p ∈ qs, p.outstanding ≤ p.depth) :
    ∀ p ∈ bumpOutstanding qs name, p.outstanding ≤ p.depth := by
  induction qs with
  | nil => simp [bumpOutstanding]
  | cons head tail ih =>
    by_cases hh : head.name == name
    · rw [List.find?_cons_of_pos (p := fun x : QueueHandle => x.name == name) _ hh] at hfind
      injection hfind with hq
      subst hq
      intro p hp
      unfold bumpOutstanding at hp
      rw [if_pos hh] at hp
      rcases List.mem_cons.mp hp with h1 | h1
      · subst h1; exact hlt
      · exact hinv p (List.mem_cons_of_mem _ h1)
    · rw [List.find?_cons_of_neg (p := fun x : QueueHandle => x.name == name) _ hh] at hfind
      intro p hp
      unfold bumpOutstanding at hp
      rw [if_neg hh] at hp
      rcases List.mem_cons.mp hp with h1 | h1
      · subst h1; exact hinv p (List.mem_cons_self p tail)
      · exact ih hfind (fun p hp => hinv p (List.mem_cons_of_mem _ hp)) p h1

/-- Resolution after bumping: the named queue is found with its counter
incremented by one. -/
lemma find?_bumpOutstanding (qs : List QueueHandle) (name : String)
    (q : QueueHandle)
    (hfind : qs.find? (fun p => p.name == name) = some q) :
    (bumpOutstanding qs name).find? (fun p => p.name == name) =
      some { q with outstanding := q.outstanding + 1 } := by
  induction qs with
  | nil => simp at hfind
  | cons head tail ih =>
    by_cases hh : head.name == name
    · rw [List.find?_cons_of_pos (p := fun x : QueueHandle => x.name == name) _ hh] at hfind
      injection hfind with hq
      subst hq
      unfold bumpOutstanding
      rw [if_pos hh]
      exact List.find?_cons_of_pos (p := fun x : QueueHandle => x.name == name) _ hh
    · rw [List.find?_cons_of_neg (p := fun x : QueueHandle => x.name == name) _ hh] at hfind
      unfold bumpOutstanding
      rw [if_neg hh]
      rw [List.find?_cons_of_neg (p := fun x : QueueHandle => x.name == name) _ hh]
      exact ih hfind

/-- A single post-write call preserves depth accounting on every queue. -/
lemma depthInvariant_post_write (ctx : ClientContext) (busy : Bool)
    (queue : String) (base length : Nat) (h : depthInvariant ctx) :
    depthInvariant ( rdma_client_post_write ctx busy queue base length).2 := by
  unfold rdma_client_post_write
  split
  · exact h
  · split
    · exact h
    · split
      · exact h
      · split
        · exact h
        · rename_i q hfind
          split
          · exact h
          · split
            · exact h
            · split
              · exact h
              · rename_i hclosed hfull hbusy
                intro p hp
                exact depthInvariant_bumpOutstanding ctx.queues queue q hfind
                  (Nat.lt_of_not_le hfull) h p hp

/-- C1: depth accounting `outstanding ≤ depth` on every queue is
preserved by every sequence of post-write calls, and a call on a Ready
context whose resolved (open) queue is at or over its configured depth
fails with QueueFull, returns a non-zero status, and does not increment
the counter (the context is unchanged). -/
theorem depth_bound_and_queue_full :
    (∀ ctx calls, depthInvariant ctx → depthInvariant (runPosts ctx calls)) ∧
    (∀ ctx busy queue base length q,
      ctx.lifecycle = LifecycleState.Ready →
      length ≠ 0 →
      inRegisteredRegion ctx base length = true →
      findQueue ctx queue = some q →
      q.connState ≠ ConnState.Closed →
      q.depth ≤ q.outstanding →
      ( rdma_client_post_write ctx busy queue base length) =
        (Except.error PostError.QueueFull, ctx) ∧
      postWriteStatus ctx busy queue base length ≠ 0) := by
  constructor
  · intro ctx calls
    induction calls generalizing ctx with
    | nil => intro h; exact h
    | cons c cs ih =>
      intro h
      exact ih _ (depthInvariant_post_write ctx c.busy c.queue c.base c.len h)
  · intro ctx busy queue base length q hReady hlen hreg hfind hopen hfull
    have hres : ( rdma_client_post_write ctx busy queue base length) =
        (Except.error PostError.QueueFull, ctx) := by
      unfold rdma_client_post_write
      rw [if_neg (by simp [hReady]), if_neg hlen, if_neg (by simp [hreg])]
      rw [hfind]
      simp only []
      rw [if_neg hopen, if_pos hfull]
    refine ⟨hres, ?_⟩
    unfold postWriteStatus
    rw [hres]
    simp [PostError.code]

/-- C1 witness: posting to the full "peer-1" queue fails with QueueFull
and mutates nothing. -/
theorem depth_bound_and_queue_full_witness :
    ( rdma_client_post_write fullCtx false "peer-1" 4096 64) =
      (Except.error PostError.QueueFull, fullCtx) :=
  (depth_bound_and_queue_full.2 fullCtx false "peer-1" 4096 64 fullQueue
    rfl (by decide) (by decide) (by decide) (by decide) (by decide)).1

/-- C6: on a Ready context with a valid buffer, a queue name absent from
the Queue Directory fails with QueueNotFound and mutates no state, and a
name resolving to a Closed queue fails with QueueClosed and mutates no
state. -/
theorem unknown_or_closed_queue_rejected :
    (∀ ctx busy queue base length,
      ctx.lifecycle = LifecycleState.Ready →
      length ≠ 0 →
      inRegisteredRegion ctx base length = true →
      findQueue ctx queue = none →
      ( rdma_client_post_write ctx busy queue base length) =
        (Except.error PostError.QueueNotFound, ctx)) ∧
    (∀ ctx busy queue base length q,
      ctx.lifecycle = LifecycleState.Ready →
      length ≠ 0 →
      inRegisteredRegion ctx base length = true →
      findQueue ctx queue = some q →
      q.connState = ConnState.Closed →
      ( rdma_client_post_write ctx busy queue base length) =
        (Except.error PostError.QueueClosed, ctx)) := by
  constructor
  · intro ctx busy queue base length hReady hlen hreg hfind
    unfold rdma_client_post_write
    rw [if_neg (by simp [hReady]), if_neg hlen, if_neg (by simp [hreg])]
    rw [hfind]
  · intro ctx busy queue base length q hReady hlen hreg hfind hclosed
    unfold rdma_client_post_write
    rw [if_neg (by simp [hReady]), if_neg hlen, if_neg (by simp [hreg])]
    rw [hfind]
    simp only []
    rw [if_pos hclosed]

/-- C6 witness: posting to "unknown-peer" fails with QueueNotFound and no
counter is mutated anywhere (the context is unchanged). -/
theorem unknown_or_closed_queue_rejected_witness :
    ( rdma_client_post_write readyCtx false "unknown-peer" 4096 64) =
      (Except.error PostError.QueueNotFound, readyCtx) :=
  unknown_or_closed_queue_rejected.1 readyCtx false "unknown-peer" 4096 64
    rfl (by decide) (by decide) (by decide)

/-- C5: on a Ready context, with a positive length, a buffer wholly
inside a registered region, and a resolved open queue with room, a post
returns the next request identifier synchronously (best-effort flag from
the Degraded state), creates exactly one new Write Request in Pending
state, and increments that queue's outstanding counter by one; moreover
the synchronous error of any post-write call is only ever NotReady,
QueueNotFound, QueueClosed, QueueFull, InvalidArgument or ResourceBusy —
never a completion-time cause. -/
theorem post_write_success_effects
    (ctx : ClientContext) (queue : String) (base length : Nat)
    (q : QueueHandle)
    (hReady : ctx.lifecycle = LifecycleState.Ready)
    (hlen : length ≠ 0)
    (hreg : inRegisteredRegion ctx base length = true)
    (hq : findQueue ctx queue = some q)
    (hopen : q.connState ≠ ConnState.Closed)
    (hroom : q.outstanding < q.depth) :
    ( rdma_client_post_write ctx false queue base length).1 =
      Except.ok { reqId := ctx.nextReqId
                  bestEffort := decide (q.connState = ConnState.Degraded) } ∧
    ( rdma_client_post_write ctx false queue base length).2.requests =
      { reqId := ctx.nextReqId, queueName := queue, base := base
        len := length, status := ReqStatus.Pending } :: ctx.requests ∧
    findQueue ( rdma_client_post_write ctx false queue base length).2 queue =
      some { q with outstanding := q.outstanding + 1 } ∧
    (∀ busy2 q2 b2 l2 e,
      ( rdma_client_post_write ctx busy2 q2 b2 l2).1 = Except.error e →
      e = PostError.NotReady ∨ e = PostError.QueueNotFound ∨
      e = PostError.QueueClosed ∨ e = PostError.QueueFull ∨
      e = PostError.InvalidArgument ∨ e = PostError.ResourceBusy) := by
  have hres : ( rdma_client_post_write ctx false queue base length) =
      (Except.ok { reqId := ctx.nextReqId
                   bestEffort := decide (q.connState = ConnState.Degraded) },
       { ctx with
           queues := bumpOutstanding ctx.queues queue
           requests := { reqId := ctx.nextReqId, queueName := queue
                         base := base, len := length
                         status := ReqStatus.Pending } :: ctx.requests
           nextReqId := ctx.nextReqId + 1 }) := by
    unfold rdma_client_post_write
    rw [if_neg (by simp [hReady]), if_neg hlen, if_neg (by simp [hreg]), hq]
    simp only []
    rw [if_neg hopen, if_neg (Nat.not_le.mpr hroom)]
    simp
  refine ⟨?_, ?_, ?_, ?_⟩
  · rw [hres]
  · rw [hres]
  · rw [hres]
    unfold findQueue at hq ⊢
    exact find?_bumpOutstanding ctx.queues queue q hq
  · intro busy2 q2 b2 l2 e _
    cases e <;> simp

/-- C5 witness: the section 8 scenario, posting 64 bytes of the sample
buffer to "peer-1". -/
theorem post_write_success_effects_witness :
    ( rdma_client_post_write readyCtx false "peer-1" 4096 64).1 =
      Except.ok { reqId := 0, bestEffort := false } :=
  (post_write_success_effects readyCtx "peer-1" 4096 64 sampleQueue rfl
    (by decide) (by decide) rfl (by decide) (by decide)).1

/-- A post-write call never changes the lifecycle state. -/
lemma post_write_lifecycle (ctx : ClientContext) (busy : Bool)
    (queue : String) (base length : Nat) :
    ( rdma_client_post_write ctx busy queue base length).2.lifecycle =
      ctx.lifecycle := by
  unfold rdma_client_post_write
  repeat' split <;> try rfl

/-- One interface call keeps a Ready shared context Ready. -/
lemma apiStep_preserves_ready (ctx : ClientContext) (c : ApiCall)
    (h : ctx.lifecycle = LifecycleState.Ready) :
    (apiStep ctx c).lifecycle = LifecycleState.Ready := by
  cases c with
  | initCall f =>
      have hne : ctx.lifecycle ≠ LifecycleState.Uninitialized := by simp [h]
      simp [apiStep, rdma_client_initialize, hne, h]
  | writeCall b q a l =>
      unfold apiStep
      rw [post_write_lifecycle]
      exact h

/-- C9: both entry points act on the one process-wide context: a
successful initialize leaves it Ready, every subsequent sequence of
interface calls observes the same Ready lifecycle state, and a
post-write call never moves the lifecycle of the shared context. -/
theorem single_shared_context :
    (∀ ctx f, ( rdma_client_initialize ctx f).1 = Except.ok () →
      ( rdma_client_initialize ctx f).2.lifecycle = LifecycleState.Ready) ∧
    (∀ ctx calls, ctx.lifecycle = LifecycleState.Ready →
      (runApi ctx calls).lifecycle = LifecycleState.Ready) ∧
    (∀ ctx busy q b l,
      ( rdma_client_post_write ctx busy q b l).2.lifecycle =
        ctx.lifecycle) := by
  refine ⟨?_, ?_, ?_⟩
  · intro ctx f h
    by_cases hu : ctx.lifecycle = LifecycleState.Uninitialized
    · cases f <;> simp_all [ rdma_client_initialize]
    · simp [ rdma_client_initialize, hu] at h
  · intro ctx calls
    induction calls generalizing ctx with
    | nil => intro h; exact h
    | cons c cs ih =>
        intro h
        exact ih (apiStep ctx c) (apiStep_preserves_ready ctx c h)
  · intro ctx busy q b l
    exact post_write_lifecycle ctx busy q b l

/-- C9 witness: a Ready context stays Ready across further interface
calls (a redundant initialize and a post). -/
theorem single_shared_context_witness :
    (runApi readyCtx
      [ApiCall.initCall FabricOutcome.ok,
       ApiCall.writeCall false "peer-1" 4096 64]).lifecycle =
      LifecycleState.Ready :=
  single_shared_context.2.1 readyCtx
    [ApiCall.initCall FabricOutcome.ok,
     ApiCall.writeCall false "peer-1" 4096 64] rfl

/-- A reaped completion whose id is unmatched is discarded. -/
lemma reap_noop_of_absent (ctx : ClientContext) (wrId : Nat)
    (o : CompletionOutcome)
    (hf : ctx.requests.find? (fun p => p.reqId == wrId) = none) :
    reapCompletion ctx wrId o = ctx := by
  unfold reapCompletion
  rw [hf]

/-- A reaped completion matching an already-retired request is a no-op. -/
lemma reap_noop_of_resolved (ctx : ClientContext) (wrId : Nat)
    (o : CompletionOutcome) (r : WriteRequest)
    (hf : ctx.requests.find? (fun p => p.reqId == wrId) = some r)
    (hst : r.status ≠ ReqStatus.Pending) :
    reapCompletion ctx wrId o = ctx := by
  unfold reapCompletion
  rw [hf]
  simp only []
  rw [if_pos hst]

/-- A reaped completion matching a Pending request resolves it and
decrements the owning queue's counter. -/
lemma reap_resolves (ctx : ClientContext) (wrId : Nat)
    (o : CompletionOutcome) (r : WriteRequest)
    (hf : ctx.requests.find? (fun p => p.reqId == wrId) = some r)
    (hst : r.status = ReqStatus.Pending) :
    reapCompletion ctx wrId o =
      { ctx with
          requests := ctx.requests.map (fun r2 =>
            if r2.reqId == wrId then { r2 with status := o.toStatus }
            else r2)
          queues := decOutstanding ctx.queues r.queueName } := by
  unfold reapCompletion
  rw [hf]
  simp only []
  rw [if_neg (by simp [hst])]

/-- Resolving by id in the request list updates the first match. -/
lemma find?_resolveMap (l : List WriteRequest) (wrId : Nat)
    (st : ReqStatus) :
    (l.map (fun r2 =>
        if r2.reqId == wrId then { r2 with status := st } else r2)).find?
      (fun p => p.reqId == wrId) =
      (l.find? (fun p => p.reqId == wrId)).map
        (fun r => { r with status := st }) := by
  induction l with
  | nil => simp
  | cons head tail ih =>
    by_cases hh : head.reqId == wrId
    · simp [List.find?_cons, hh, eq_of_beq hh]
    · have hb : (head.reqId == wrId) = false := by simpa using hh
      simp only [List.map_cons, List.find?_cons, hb, if_neg Bool.false_ne_true]
      exact ih

/-- Resolution after decrementing: the named queue is found with its
counter decremented by one. -/
lemma find?_decOutstanding (qs : List QueueHandle) (name : String)
    (q : QueueHandle)
    (hfind : qs.find? (fun p => p.name == name) = some q) :
    (decOutstanding qs name).find? (fun p => p.name == name) =
      some { q with outstanding := q.outstanding - 1 } := by
  induction qs with
  | nil => simp at hfind
  | cons head tail ih =>
    by_cases hh : head.name == name
    · rw [List.find?_cons_of_pos (p := fun x : QueueHandle => x.name == name) _ hh] at hfind
      injection hfind with hq
      subst hq
      unfold decOutstanding
      rw [if_pos hh]
      exact List.find?_cons_of_pos (p := fun x : QueueHandle => x.name == name) _ hh
    · rw [List.find?_cons_of_neg (p := fun x : QueueHandle => x.name == name) _ hh] at hfind
      unfold decOutstanding
      rw [if_neg hh]
      rw [List.find?_cons_of_neg (p := fun x : QueueHandle => x.name == name) _ hh]
      exact ih hfind

/-- C7: re-reaping an already-resolved work-request id is a no-op (the
status is assigned at most once), and reaping a Pending request assigns
its resolved (non-Pending) status and decrements the owning queue's
outstanding counter exactly once. -/
theorem completion_resolved_once :
    (∀ ctx wrId o1 o2,
      reapCompletion (reapCompletion ctx wrId o1) wrId o2 =
        reapCompletion ctx wrId o1) ∧
    (∀ ctx wrId outcome r,
      ctx.requests.find? (fun p => p.reqId == wrId) = some r →
      r.status = ReqStatus.Pending →
      outcome.toStatus ≠ ReqStatus.Pending ∧
      (reapCompletion ctx wrId outcome).requests.find?
          (fun p => p.reqId == wrId) =
        some { r with status := outcome.toStatus } ∧
      (reapCompletion ctx wrId outcome).queues =
        decOutstanding ctx.queues r.queueName ∧
      (∀ qh, findQueue ctx r.queueName = some qh →
        findQueue (reapCompletion ctx wrId outcome) r.queueName =
          some { qh with outstanding := qh.outstanding - 1 })) := by
  have hfind' : ∀ ctx wrId outcome r,
      ctx.requests.find? (fun p => p.reqId == wrId) = some r →
      r.status = ReqStatus.Pending →
      (reapCompletion ctx wrId outcome).requests.find?
          (fun p => p.reqId == wrId) =
        some { r with status := outcome.toStatus } := by
    intro ctx wrId outcome r hf hst
    rw [reap_resolves ctx wrId outcome r hf hst]
    simp only []
    rw [find?_resolveMap, hf]
    rfl
  constructor
  · intro ctx wrId o1 o2
    cases hf : ctx.requests.find? (fun p => p.reqId == wrId) with
    | none =>
        rw [reap_noop_of_absent ctx wrId o1 hf,
            reap_noop_of_absent ctx wrId o2 hf]
    | some r =>
        by_cases hst : r.status = ReqStatus.Pending
        · have h2 := hfind' ctx wrId o1 r hf hst
          have h3 : ({ r with status := o1.toStatus } : WriteRequest).status ≠
              ReqStatus.Pending := by
            cases o1 <;> simp [CompletionOutcome.toStatus]
          exact reap_noop_of_resolved _ wrId o2 _ h2 h3
        · rw [reap_noop_of_resolved ctx wrId o1 r hf hst,
              reap_noop_of_resolved ctx wrId o2 r hf hst]
  · intro ctx wrId outcome r hf hst
    refine ⟨?_, hfind' ctx wrId outcome r hf hst, ?_, ?_⟩
    · cases outcome <;> simp [CompletionOutcome.toStatus]
    · rw [reap_resolves ctx wrId outcome r hf hst]
    · intro qh hq
      rw [reap_resolves ctx wrId outcome r hf hst]
      unfold findQueue at hq ⊢
      simp only []
      exact find?_decOutstanding ctx.queues r.queueName qh hq

/-- C7 witness: reaping the sample Pending request resolves it to
Succeeded. -/
theorem completion_resolved_once_witness :
    (reapCompletion reapCtx 0 CompletionOutcome.success).requests.find?
        (fun p => p.reqId == 0) =
      some { pendingReq with status := ReqStatus.Succeeded } :=
  ((completion_resolved_once.2 reapCtx 0 CompletionOutcome.success
    pendingReq rfl rfl).2).1

/-- Shutdown from Ready or Failed succeeds and produces the drained,
released, Closed context. -/
lemma shutdown_resolves (ctx : ClientContext)
    (hlife : ctx.lifecycle = LifecycleState.Ready ∨
             ctx.lifecycle = LifecycleState.Failed) :
    ( rdma_client_shutdown ctx) =
      (Except.ok (),
       { ctx with
           lifecycle := LifecycleState.Closed
           fabricBound := false
           poolAllocated := false
           requests := ctx.requests.map (fun r =>
             if r.status == ReqStatus.Pending then
               { r with status := ReqStatus.Failed FailCause.Cancelled }
             else r) }) := by
  unfold rdma_client_shutdown
  rw [if_pos hlife]

/-- After the bulk cancellation no Pending request remains. -/
lemma no_pending_after_cancel (l : List WriteRequest) :
    (l.map (fun r =>
        if r.status == ReqStatus.Pending then
          { r with status := ReqStatus.Failed FailCause.Cancelled }
        else r)).filter (fun r => r.status == ReqStatus.Pending) = [] := by
  rw [List.filter_eq_nil_iff]
  intro r hr
  rcases List.mem_map.mp hr with ⟨a, ha, rfl⟩
  by_cases hp : a.status = ReqStatus.Pending
  · simp [hp]
  · simp [hp]

/-- A resolve event in the shutdown trace sits before position N, the
number of Pending requests. -/
lemma trace_resolve_lt (ctx : ClientContext) (i w : Nat)
    (h : (shutdownTrace ctx)[i]? = some (ShutdownEvent.resolveRequest w)) :
    i < (pendingIds ctx).length := by
  by_contra hge
  push_neg at hge
  rw [shutdownTrace, List.getElem?_append_right (by simpa using hge)] at h
  rw [List.length_map] at h
  cases hn : i - (pendingIds ctx).length with
  | zero => rw [hn] at h; simp at h
  | succ k =>
    cases k with
    | zero => rw [hn] at h; simp at h
    | succ m => rw [hn] at h; simp at h

/-- The memory-pool release event of the shutdown trace sits exactly at
position N, after every resolve event. -/
lemma trace_pool_eq (ctx : ClientContext) (j : Nat)
    (h : (shutdownTrace ctx)[j]? = some ShutdownEvent.releasePool) :
    j = (pendingIds ctx).length := by
  by_cases hlt : j < (pendingIds ctx).length
  · rw [shutdownTrace, List.getElem?_append_left (by simpa using hlt),
        List.getElem?_map] at h
    cases hg : (pendingIds ctx)[j]? with
    | none => rw [hg] at h; simp at h
    | some w => rw [hg] at h; simp at h
  · push_neg at hlt
    rw [shutdownTrace, List.getElem?_append_right (by simpa using hlt)] at h
    rw [List.length_map] at h
    cases hn : j - (pendingIds ctx).length with
    | zero => omega
    | succ k =>
      cases k with
      | zero => rw [hn] at h; simp at h
      | succ m => rw [hn] at h; simp at h

/-- The shutdown trace carries one resolve event per Pending request. -/
lemma trace_resolve_count (ctx : ClientContext) :
    (shutdownTrace ctx).countP ShutdownEvent.isResolve =
      (pendingIds ctx).length := by
  rw [shutdownTrace, List.countP_append]
  have h1 : ((pendingIds ctx).map ShutdownEvent.resolveRequest).countP
      ShutdownEvent.isResolve = (pendingIds ctx).length := by
    induction pendingIds ctx with
    | nil => simp
    | cons a l ih =>
        simp [List.countP_cons, ih, ShutdownEvent.isResolve]
  rw [h1]
  simp [List.countP_cons, ShutdownEvent.isResolve]

/-- C8: shutdown from Ready (or Failed) succeeds, resolves every Pending
Write Request to Failed(Cancelled) (none remains Pending, and the trace
carries exactly one resolve event per Pending request), releases the
memory pool and fabric binding, transitions to Closed, and in the
shutdown trace the pool release comes strictly after every request
resolution. -/
theorem shutdown_cancels_then_releases (ctx : ClientContext)
    (hlife : ctx.lifecycle = LifecycleState.Ready ∨
             ctx.lifecycle = LifecycleState.Failed) :
    ( rdma_client_shutdown ctx).1 = Except.ok () ∧
    pendingIds ( rdma_client_shutdown ctx).2 = [] ∧
    (∀ r ∈ ctx.requests, r.status = ReqStatus.Pending →
      { r with status := ReqStatus.Failed FailCause.Cancelled } ∈
        ( rdma_client_shutdown ctx).2.requests) ∧
    ( rdma_client_shutdown ctx).2.poolAllocated = false ∧
    ( rdma_client_shutdown ctx).2.lifecycle = LifecycleState.Closed ∧
    (shutdownTrace ctx).countP ShutdownEvent.isResolve =
      (pendingIds ctx).length ∧
    (∀ i j w : Nat,
      (shutdownTrace ctx)[i]? = some (ShutdownEvent.resolveRequest w) →
      (shutdownTrace ctx)[j]? = some ShutdownEvent.releasePool →
      i < j) := by
  refine ⟨?_, ?_, ?_, ?_, ?_, trace_resolve_count ctx, ?_⟩
  · rw [shutdown_resolves ctx hlife]
  · rw [shutdown_resolves ctx hlife]
    unfold pendingIds
    simp only []
    rw [no_pending_after_cancel ctx.requests]
    rfl
  · intro r hr hst
    rw [shutdown_resolves ctx hlife]
    simp only []
    exact List.mem_map.mpr ⟨r, hr, by simp [hst]⟩
  · rw [shutdown_resolves ctx hlife]
  · rw [shutdown_resolves ctx hlife]
  · intro i j w h1 h2
    have ha := trace_resolve_lt ctx i w h1
    have hb := trace_pool_eq ctx j h2
    omega

/-- C8 witness: shutting down with one Pending request. -/
theorem shutdown_cancels_then_releases_witness :
    ( rdma_client_shutdown reapCtx).1 = Except.ok () ∧
    ( rdma_client_shutdown reapCtx).2.poolAllocated = false :=
  ⟨(shutdown_cancels_then_releases reapCtx (Or.inl rfl)).1,
   (shutdown_cancels_then_releases reapCtx (Or.inl rfl)).2.2.2.1⟩

end RdmaClient
